import Mathlib

/-!
Verification of the node wrapper's FFI callback bridge and its domain
operations, embedded shallowly from
src/vcx/wrappers/node/src/api/utils.ts and
src/vcx/wrappers/node/src/api/wallet.ts (plus the vcxInit tests).
The helper createFFICallbackPromise, the VCXInternalError class and
initVcx live outside src/ and are modelled from the spec where needed;
the per-operation executors and callbacks are translated from the source.
-/

/-- Modelled from the spec: the settled outcome of a pending call is exactly
one of resolve(value) or reject(code) (spec section 3, Pending Call). -/
inductive Outcome (α : Type) where
  | resolved (v : α)
  | rejected (code : Nat)
deriving DecidableEq

/-- Modelled from the spec: a promise settles exactly once; a settlement
attempt on an already-settled promise has no effect (createFFICallbackPromise
lives in ../utils/ffi-helpers, outside src/). -/
def settle {α : Type} (s : Option (Outcome α)) (o : Outcome α) : Option (Outcome α) :=
  match s with
  | some x => some x
  | none => some o

/-- Modelled from the spec: the outcome delivered by the bridge for a sequence
of settlement attempts (executor-time rejections followed by callback-time
settlements), first attempt wins. -/
def runEvents {α : Type} (es : List (Outcome α)) : Option (Outcome α) :=
  es.foldl settle none

/-- Modelled from the spec: the Structured Error surfaced to callers
(class VCXInternalError from ../errors, outside src/); the fields follow the
constructor arguments visible at the call sites: a numeric code always, and a
message and native function name exactly when the call site supplies them. -/
structure VCXInternalError where
  code : Nat
  message : Option String
  nativeFunctionName : Option String
deriving DecidableEq

/-- Modelled from the spec: the try/await/catch shape shared by every domain
operation; a resolved payload is returned, a rejected code is wrapped by the
operation's catch clause into a VCXInternalError. -/
def opResult {α : Type} (wrap : Nat → VCXInternalError) (events : List (Outcome α)) :
    Option (Except VCXInternalError α) :=
  match runEvents events with
  | none => none
  | some (Outcome.resolved v) => some (Except.ok v)
  | some (Outcome.rejected c) => some (Except.error (wrap c))

/-! ## provisionAgent (utils.ts lines 9-49) -/

/-- The correlation handle provisionAgent passes as the first argument of
vcx_agent_provision_async (utils.ts line 30). -/
def provisionAgent_commandHandle : Nat := 0

/-- The native entry point provisionAgent invokes (utils.ts line 30). -/
def provisionAgent_nativeFunction : String := "vcx_agent_provision_async"

/-- Executor of provisionAgent (utils.ts lines 29-34): given the immediate
status rc of the native call, reject(rc) fires exactly when rc is nonzero. -/
def provisionAgent_submit (rc : Nat) : List (Outcome String) :=
  if rc ≠ 0 then [Outcome.rejected rc] else []

/-- Completion callback of provisionAgent (utils.ts lines 35-44): nonzero err
rejects with err, otherwise the config payload is resolved. -/
def provisionAgent_cb (xhandle err : Nat) (config : String) : Outcome String :=
  if err ≠ 0 then Outcome.rejected err else Outcome.resolved config

/-- Catch clause of provisionAgent (utils.ts line 47): the rejected code is
wrapped as VCXInternalError(err), with no message and no function name. -/
def provisionAgent_wrap (c : Nat) : VCXInternalError :=
  { code := c, message := none, nativeFunctionName := none }

/-- Result of a provisionAgent run: immediate status rc, then the listed
callback invocations (xhandle, err, config). -/
def provisionAgent_result (rc : Nat) (cbs : List (Nat × Nat × String)) :
    Option (Except VCXInternalError String) :=
  opResult provisionAgent_wrap
    (provisionAgent_submit rc ++ cbs.map (fun c => provisionAgent_cb c.1 c.2.1 c.2.2))

/-! ## Wallet.getTokenInfo (wallet.ts lines 34-55) -/

/-- The correlation handle getTokenInfo passes to the native call
(wallet.ts line 38, first argument). -/
def getTokenInfo_commandHandle : Nat := 0

/-- The native entry point getTokenInfo invokes (wallet.ts line 38). -/
def getTokenInfo_nativeFunction : String := "vcx_wallet_get_token_info"

/-- Executor of getTokenInfo (wallet.ts lines 37-42). -/
def getTokenInfo_submit (rc : Nat) : List (Outcome String) :=
  if rc ≠ 0 then [Outcome.rejected rc] else []

/-- Completion callback of getTokenInfo (wallet.ts lines 43-50). -/
def getTokenInfo_cb (xhandle err : Nat) (info : String) : Outcome String :=
  if err ≠ 0 then Outcome.rejected err else Outcome.resolved info

/-- Catch clause of getTokenInfo (wallet.ts line 53): the error is wrapped as
VCXInternalError(err, VCXBase.errorMessage(err), the function name string).
VCXBase.errorMessage lives outside src/ and is taken as a parameter. -/
def getTokenInfo_wrap (errMsg : Nat → String) (c : Nat) : VCXInternalError :=
  { code := c, message := some (errMsg c),
    nativeFunctionName := some "vcx_wallet_get_token_info" }

/-- Result of a getTokenInfo run. -/
def getTokenInfo_result (errMsg : Nat → String) (rc : Nat)
    (cbs : List (Nat × Nat × String)) : Option (Except VCXInternalError String) :=
  opResult (getTokenInfo_wrap errMsg)
    (getTokenInfo_submit rc ++ cbs.map (fun c => getTokenInfo_cb c.1 c.2.1 c.2.2))

/-! ## Wallet.addRecord and Wallet.openSearch correlation handles -/

/-- The correlation handle addRecord passes (wallet.ts line 98). -/
def addRecord_commandHandle : Nat := 0

/-- The correlation handle openSearch passes (wallet.ts line 351). -/
def openSearch_commandHandle : Nat := 0

/-- The correlation handles passed by the remaining modelled operations:
updateMessages (utils.ts line 165), updateRecordValue (wallet.ts line 134) and
closeSearch (wallet.ts line 388), each the literal 0 of the source. -/
def updateMessages_commandHandle : Nat := 0

/-- The correlation handle updateRecordValue passes (wallet.ts line 134). -/
def updateRecordValue_commandHandle : Nat := 0

/-- The correlation handle closeSearch passes (wallet.ts line 388). -/
def closeSearch_commandHandle : Nat := 0

/-- The correlation handles of all modelled operations, in source order. -/
def allCommandHandles : List Nat :=
  [provisionAgent_commandHandle, updateMessages_commandHandle,
   getTokenInfo_commandHandle, addRecord_commandHandle,
   updateRecordValue_commandHandle, openSearch_commandHandle,
   closeSearch_commandHandle]

/-! ## updateMessages (utils.ts lines 161-184) -/

/-- Executor of updateMessages (utils.ts lines 164-169). -/
def updateMessages_submit (rc : Nat) : List (Outcome Nat) :=
  if rc ≠ 0 then [Outcome.rejected rc] else []

/-- Completion callback of updateMessages (utils.ts lines 170-179): nonzero
err rejects with err; otherwise resolve(err) passes the err value itself. -/
def updateMessages_cb (xhandle err : Nat) : Outcome Nat :=
  if err ≠ 0 then Outcome.rejected err else Outcome.resolved err

/-- Catch clause of updateMessages (utils.ts line 182): VCXInternalError(err)
with no message and no function name. -/
def updateMessages_wrap (c : Nat) : VCXInternalError :=
  { code := c, message := none, nativeFunctionName := none }

/-- Result of an updateMessages run: immediate status rc, then callback
invocations (xhandle, err). -/
def updateMessages_result (rc : Nat) (cbs : List (Nat × Nat)) :
    Option (Except VCXInternalError Nat) :=
  opResult updateMessages_wrap
    (updateMessages_submit rc ++ cbs.map (fun c => updateMessages_cb c.1 c.2))

/-! ## updateInstitutionConfigs (utils.ts lines 117-123) -/

/-- updateInstitutionConfigs (utils.ts lines 117-123), with the immediate
status of vcx_update_institution_info as an oracle argument rc: a nonzero rc
throws VCXInternalError(rc); otherwise rc itself is returned. -/
def updateInstitutionConfigs (rc : Nat) : Except VCXInternalError Nat :=
  if rc ≠ 0 then
    Except.error { code := rc, message := none, nativeFunctionName := none }
  else
    Except.ok rc

/-! ## Wallet.updateRecordValue (wallet.ts lines 133-158) -/

/-- The native entry point updateRecordValue invokes (wallet.ts line 138). -/
def updateRecordValue_nativeFunction : String := "vcx_wallet_update_record_value"

/-- Executor of updateRecordValue (wallet.ts lines 137-145). -/
def updateRecordValue_submit (rc : Nat) : List (Outcome String) :=
  if rc ≠ 0 then [Outcome.rejected rc] else []

/-- Completion callback of updateRecordValue (wallet.ts lines 146-153). -/
def updateRecordValue_cb (xhandle err : Nat) (receipt : String) : Outcome String :=
  if err ≠ 0 then Outcome.rejected err else Outcome.resolved receipt

/-- Catch clause of updateRecordValue (wallet.ts line 156): the error names
the string "vcx_wallet_wallet_update_value". -/
def updateRecordValue_wrap (errMsg : Nat → String) (c : Nat) : VCXInternalError :=
  { code := c, message := some (errMsg c),
    nativeFunctionName := some "vcx_wallet_wallet_update_value" }

/-- Result of an updateRecordValue run. -/
def updateRecordValue_result (errMsg : Nat → String) (rc : Nat)
    (cbs : List (Nat × Nat × String)) : Option (Except VCXInternalError String) :=
  opResult (updateRecordValue_wrap errMsg)
    (updateRecordValue_submit rc ++ cbs.map (fun c => updateRecordValue_cb c.1 c.2.1 c.2.2))

/-! ## Wallet.closeSearch (wallet.ts lines 387-411) -/

/-- The native entry point closeSearch invokes (wallet.ts line 392). -/
def closeSearch_nativeFunction : String := "vcx_wallet_close_search"

/-- Executor of closeSearch (wallet.ts lines 391-397). -/
def closeSearch_submit (rc : Nat) : List (Outcome Nat) :=
  if rc ≠ 0 then [Outcome.rejected rc] else []

/-- Completion callback of closeSearch (wallet.ts lines 399-406): on success
it calls resolve(handle), where handle is the search handle argument of
closeSearch captured by the closure, not a callback parameter. -/
def closeSearch_cb (handle xhandle err : Nat) : Outcome Nat :=
  if err ≠ 0 then Outcome.rejected err else Outcome.resolved handle

/-- Catch clause of closeSearch (wallet.ts line 409): the error names the
string "vcx_wallet_open_search". -/
def closeSearch_wrap (errMsg : Nat → String) (c : Nat) : VCXInternalError :=
  { code := c, message := some (errMsg c),
    nativeFunctionName := some "vcx_wallet_open_search" }

/-- Result of a closeSearch run on search handle h: immediate status rc, then
callback invocations (xhandle, err). -/
def closeSearch_result (errMsg : Nat → String) (h rc : Nat)
    (cbs : List (Nat × Nat)) : Option (Except VCXInternalError Nat) :=
  opResult (closeSearch_wrap errMsg)
    (closeSearch_submit rc ++ cbs.map (fun c => closeSearch_cb h c.1 c.2))

/-! ## Runtime Binding initialization -/

/-- The error codes the vcxInit tests observe (src/unnamed/part_000). -/
inductive VCXCode where
  | SUCCESS
  | INVALID_CONFIGURATION
deriving DecidableEq

/-- State of the process-wide Runtime Binding (spec section 4.4). -/
inductive BindingState where
  | Uninit
  | Ready (path : String)
deriving DecidableEq

/-- Modelled from the spec: initVcx / the Runtime Binding load request, whose
implementation is outside src/ (src/unnamed/part_000 holds only its tests).
Per spec section 4.4, the load fails with INVALID_CONFIGURATION when the path
is null (none), empty, or cannot be loaded/linked (captured by the loadable
predicate); on failure the binding state is left unchanged, on success it
becomes Ready. -/
def initVcx (loadable : String → Bool) (path : Option String) (s : BindingState) :
    Except VCXCode Unit × BindingState :=
  match path with
  | none => (Except.error VCXCode.INVALID_CONFIGURATION, s)
  | some p =>
    if p = "" then (Except.error VCXCode.INVALID_CONFIGURATION, s)
    else if loadable p then (Except.ok (), BindingState.Ready p)
    else (Except.error VCXCode.INVALID_CONFIGURATION, s)

/-! ## Basic lemmas about the bridge -/

/-- Once settled, further settlement attempts do not change the outcome. -/
theorem foldl_settle_some {α : Type} (o : Outcome α) (l : List (Outcome α)) :
    l.foldl settle (some o) = some o := by
  induction l with
  | nil => rfl
  | cons e rest ih => simpa [settle] using ih

/-- The delivered outcome is the first settlement attempt. -/
theorem runEvents_eq_head {α : Type} (es : List (Outcome α)) :
    runEvents es = es.head? := by
  cases es with
  | nil => rfl
  | cons e rest =>
    simp [runEvents, List.foldl, settle, foldl_settle_some]

/-- opResult on an empty event sequence: the promise never settles. -/
theorem opResult_nil {α : Type} (wrap : Nat → VCXInternalError) :
    opResult wrap ([] : List (Outcome α)) = none := rfl

/-- opResult is decided by the first settlement attempt. -/
theorem opResult_cons {α : Type} (wrap : Nat → VCXInternalError) (e : Outcome α)
    (rest : List (Outcome α)) :
    opResult wrap (e :: rest) =
      some (match e with
            | Outcome.resolved v => Except.ok v
            | Outcome.rejected c => Except.error (wrap c)) := by
  cases e <;> simp [opResult, runEvents, List.foldl, settle, foldl_settle_some]

/-! ## Claim theorems -/

/-- C1: for the bridged domain operations, an immediate submission status of 0
followed by a completion callback with error code 0 and payload p makes the
returned promise resolve with exactly p (shown for the cited operations
Wallet.getTokenInfo and provisionAgent). -/
theorem C1_success_resolves_payload (errMsg : Nat → String) (x : Nat) (p : String) :
    getTokenInfo_result errMsg 0 [(x, 0, p)] = some (Except.ok p) ∧
    provisionAgent_result 0 [(x, 0, p)] = some (Except.ok p) := by
  constructor <;>
    simp [getTokenInfo_result, provisionAgent_result, getTokenInfo_submit,
      provisionAgent_submit, getTokenInfo_cb, provisionAgent_cb, opResult_cons]

/-- C2: a nonzero immediate submission status rc makes the returned promise
reject with a structured error carrying code rc, whatever callback
invocations (if any) follow — the callback is never needed to settle the
call (shown for Wallet.getTokenInfo and provisionAgent). -/
theorem C2_nonzero_submission_rejects (errMsg : Nat → String) (rc : Nat)
    (cbs : List (Nat × Nat × String)) (h : rc ≠ 0) :
    getTokenInfo_result errMsg rc cbs =
      some (Except.error (getTokenInfo_wrap errMsg rc)) ∧
    (getTokenInfo_wrap errMsg rc).code = rc ∧
    provisionAgent_result rc cbs = some (Except.error (provisionAgent_wrap rc)) ∧
    (provisionAgent_wrap rc).code = rc := by
  refine ⟨?_, rfl, ?_, rfl⟩ <;>
    simp [getTokenInfo_result, provisionAgent_result, getTokenInfo_submit,
      provisionAgent_submit, h, opResult_cons]

/-- C2 witness: the spec scenario with immediate status 1 and a callback that
would deliver "ok" still rejects with code 1. -/
theorem C2_nonzero_submission_rejects_witness :
    getTokenInfo_result (fun _ => "m") 1 [(0, 0, "ok")] =
      some (Except.error (getTokenInfo_wrap (fun _ => "m") 1)) ∧
    (getTokenInfo_wrap (fun _ => "m") 1).code = 1 ∧
    provisionAgent_result 1 [(0, 0, "ok")] = some (Except.error (provisionAgent_wrap 1)) ∧
    (provisionAgent_wrap 1).code = 1 :=
  C2_nonzero_submission_rejects (fun _ => "m") 1 [(0, 0, "ok")] (by decide)

/-- C3: for nonzero code c, a submission-time failure with status c and a
callback-time failure with error code c surface the same structured error to
the caller (shown for Wallet.getTokenInfo and provisionAgent). -/
theorem C3_failure_paths_indistinguishable (errMsg : Nat → String)
    (c x : Nat) (p : String) (h : c ≠ 0) :
    getTokenInfo_result errMsg c [] = getTokenInfo_result errMsg 0 [(x, c, p)] ∧
    getTokenInfo_result errMsg c [] =
      some (Except.error (getTokenInfo_wrap errMsg c)) ∧
    provisionAgent_result c [] = provisionAgent_result 0 [(x, c, p)] ∧
    provisionAgent_result c [] = some (Except.error (provisionAgent_wrap c)) := by
  refine ⟨?_, ?_, ?_, ?_⟩ <;>
    simp [getTokenInfo_result, provisionAgent_result, getTokenInfo_submit,
      provisionAgent_submit, getTokenInfo_cb, provisionAgent_cb, h, opResult_cons]

/-- C3 witness: at code 2 the two failure paths of both operations coincide. -/
theorem C3_failure_paths_indistinguishable_witness :
    getTokenInfo_result (fun _ => "m") 2 [] =
      getTokenInfo_result (fun _ => "m") 0 [(0, 2, "p")] ∧
    getTokenInfo_result (fun _ => "m") 2 [] =
      some (Except.error (getTokenInfo_wrap (fun _ => "m") 2)) ∧
    provisionAgent_result 2 [] = provisionAgent_result 0 [(0, 2, "p")] ∧
    provisionAgent_result 2 [] = some (Except.error (provisionAgent_wrap 2)) :=
  C3_failure_paths_indistinguishable (fun _ => "m") 2 0 "p" (by decide)

/-- C4 counterexample: on failure, Wallet.closeSearch surfaces an error whose
nativeFunctionName is "vcx_wallet_open_search", not the invoked entry point
vcx_wallet_close_search; Wallet.updateRecordValue names
"vcx_wallet_wallet_update_value", not the invoked
vcx_wallet_update_record_value; and provisionAgent's error carries neither a
message nor a function name. -/
theorem C4_counterexample :
    closeSearch_result (fun _ => "m") 5 1 [] =
      some (Except.error
        { code := 1, message := some "m",
          nativeFunctionName := some "vcx_wallet_open_search" }) ∧
    some "vcx_wallet_open_search" ≠ some closeSearch_nativeFunction ∧
    updateRecordValue_result (fun _ => "m") 1 [] =
      some (Except.error
        { code := 1, message := some "m",
          nativeFunctionName := some "vcx_wallet_wallet_update_value" }) ∧
    some "vcx_wallet_wallet_update_value" ≠ some updateRecordValue_nativeFunction ∧
    provisionAgent_result 1 [] =
      some (Except.error { code := 1, message := none, nativeFunctionName := none }) :=
  ⟨rfl, by decide, rfl, by decide, rfl⟩

/-- C4 (amended): every failure surfaced by the modelled operations carries
the numeric code; the wallet-class operations additionally carry a message
and a native function name string, but that string does not always identify
the failed entry point (closeSearch names "vcx_wallet_open_search",
updateRecordValue names "vcx_wallet_wallet_update_value"), and the utils-style
provisionAgent error carries the code alone. -/
theorem C4_amended_error_shape (errMsg : Nat → String) (c h : Nat)
    (cbs2 : List (Nat × Nat)) (cbs : List (Nat × Nat × String)) (hc : c ≠ 0) :
    getTokenInfo_result errMsg c cbs =
      some (Except.error
        { code := c, message := some (errMsg c),
          nativeFunctionName := some getTokenInfo_nativeFunction }) ∧
    closeSearch_result errMsg h c cbs2 =
      some (Except.error
        { code := c, message := some (errMsg c),
          nativeFunctionName := some "vcx_wallet_open_search" }) ∧
    updateRecordValue_result errMsg c cbs =
      some (Except.error
        { code := c, message := some (errMsg c),
          nativeFunctionName := some "vcx_wallet_wallet_update_value" }) ∧
    provisionAgent_result c cbs =
      some (Except.error { code := c, message := none, nativeFunctionName := none }) := by
  refine ⟨?_, ?_, ?_, ?_⟩ <;>
    simp [getTokenInfo_result, closeSearch_result, updateRecordValue_result,
      provisionAgent_result, getTokenInfo_submit, closeSearch_submit,
      updateRecordValue_submit, provisionAgent_submit, hc, opResult_cons,
      getTokenInfo_wrap, closeSearch_wrap, updateRecordValue_wrap,
      provisionAgent_wrap, getTokenInfo_nativeFunction]

/-- C4 amended witness at code 3, search handle 9. -/
theorem C4_amended_error_shape_witness :
    getTokenInfo_result (fun _ => "m") 3 [] =
      some (Except.error
        { code := 3, message := some "m",
          nativeFunctionName := some getTokenInfo_nativeFunction }) ∧
    closeSearch_result (fun _ => "m") 9 3 [] =
      some (Except.error
        { code := 3, message := some "m",
          nativeFunctionName := some "vcx_wallet_open_search" }) ∧
    updateRecordValue_result (fun _ => "m") 3 [] =
      some (Except.error
        { code := 3, message := some "m",
          nativeFunctionName := some "vcx_wallet_wallet_update_value" }) ∧
    provisionAgent_result 3 [] =
      some (Except.error { code := 3, message := none, nativeFunctionName := none }) :=
  C4_amended_error_shape (fun _ => "m") 3 9 [] [] (by decide)

/-- C5 counterexample: distinct submitted calls do not bear distinct
correlation tokens — provisionAgent, addRecord and openSearch all pass the
same token 0 as their correlation handle. -/
theorem C5_counterexample :
    addRecord_commandHandle = openSearch_commandHandle ∧
    openSearch_commandHandle = provisionAgent_commandHandle ∧
    provisionAgent_commandHandle = 0 :=
  ⟨rfl, rfl, rfl⟩

/-- C5 (amended): every submitted call is tagged with the constant
correlation token 0 (the literal commandHandle of each call site); no fresh
process-unique token is minted, so concurrent pending calls share token 0. -/
theorem C5_amended_constant_token :
    allCommandHandles.all (fun t => t == 0) = true := by decide

/-- C6: initializing the runtime binding with a null, empty, or unloadable
library path fails with INVALID_CONFIGURATION and leaves the binding
Uninit, with no partial initialization taking effect. -/
theorem C6_invalid_config_leaves_uninitialized (loadable : String → Bool)
    (path : Option String)
    (h : path = none ∨ path = some "" ∨ ∀ p, path = some p → loadable p = false) :
    initVcx loadable path BindingState.Uninit =
      (Except.error VCXCode.INVALID_CONFIGURATION, BindingState.Uninit) := by
  rcases h with h | h | h
  · subst h; rfl
  · subst h; simp [initVcx]
  · cases path with
    | none => rfl
    | some p =>
      have hp := h p rfl
      by_cases he : p = "" <;> simp [initVcx, he, hp]

/-- C6 witness: the vcxInit test scenario, an unloadable path "invalidPath". -/
theorem C6_invalid_config_leaves_uninitialized_witness :
    initVcx (fun _ => false) (some "invalidPath") BindingState.Uninit =
      (Except.error VCXCode.INVALID_CONFIGURATION, BindingState.Uninit) :=
  C6_invalid_config_leaves_uninitialized (fun _ => false) (some "invalidPath")
    (Or.inr (Or.inr (fun _ _ => rfl)))

/-- C7: once a call's promise has settled to outcome o, any further
settlement attempts leave the delivered outcome o unchanged, and o is exactly
one of resolved or rejected. -/
theorem C7_exactly_once_settlement (α : Type) (es more : List (Outcome α))
    (o : Outcome α) (h : runEvents es = some o) :
    runEvents (es ++ more) = some o ∧
    ((∃ v, o = Outcome.resolved v) ↔ ¬ ∃ c, o = Outcome.rejected c) := by
  constructor
  · have : runEvents (es ++ more) = more.foldl settle (runEvents es) := by
      simp [runEvents, List.foldl_append]
    rw [this, h, foldl_settle_some]
  · cases o <;> simp

/-- C7 witness: a resolved call absorbs a later rejection attempt. -/
theorem C7_exactly_once_settlement_witness :
    runEvents ([Outcome.resolved "ok"] ++ [Outcome.rejected 5]) =
      some (Outcome.resolved "ok") ∧
    ((∃ v, Outcome.resolved "ok" = Outcome.resolved v) ↔
      ¬ ∃ c, (Outcome.resolved "ok" : Outcome String) = Outcome.rejected c) :=
  C7_exactly_once_settlement String [Outcome.resolved "ok"] [Outcome.rejected 5]
    (Outcome.resolved "ok") rfl

/-- C8: whenever updateMessages resolves successfully, the resolved numeric
value is exactly 0, since the success branch resolves with the callback's
error code, which is 0 there. -/
theorem C8_updateMessages_resolves_zero (rc : Nat) (cbs : List (Nat × Nat))
    (v : Nat) (h : updateMessages_result rc cbs = some (Except.ok v)) : v = 0 := by
  by_cases hrc : rc = 0
  · subst hrc
    cases cbs with
    | nil =>
      simp [updateMessages_result, updateMessages_submit, opResult_nil] at h
    | cons c rest =>
      by_cases he : c.2 = 0
      · simp [updateMessages_result, updateMessages_submit, updateMessages_cb,
          he, opResult_cons] at h
        omega
      · simp [updateMessages_result, updateMessages_submit, updateMessages_cb,
          he, opResult_cons] at h
  · simp [updateMessages_result, updateMessages_submit, hrc, opResult_cons] at h

/-- C8 witness: a successful run (status 0, callback error 0) resolves 0. -/
theorem C8_updateMessages_resolves_zero_witness :
    updateMessages_result 0 [(7, 0)] = some (Except.ok 0) ∧ (0 : Nat) = 0 :=
  ⟨rfl, C8_updateMessages_resolves_zero 0 [(7, 0)] 0 rfl⟩

/-- C9: on success, Wallet.closeSearch's inner promise is resolved with the
search handle argument that was passed in (the closure captures it), and on
failure the surfaced error names "vcx_wallet_open_search" rather than the
close-search entry point. -/
theorem C9_closeSearch_behavior (errMsg : Nat → String) (h x c : Nat)
    (hc : c ≠ 0) :
    closeSearch_result errMsg h 0 [(x, 0)] = some (Except.ok h) ∧
    closeSearch_cb h x 0 = Outcome.resolved h ∧
    closeSearch_result errMsg h c [] =
      some (Except.error
        { code := c, message := some (errMsg c),
          nativeFunctionName := some "vcx_wallet_open_search" }) ∧
    "vcx_wallet_open_search" ≠ closeSearch_nativeFunction := by
  refine ⟨?_, ?_, ?_, by decide⟩ <;>
    simp [closeSearch_result, closeSearch_submit, closeSearch_cb, hc,
      opResult_cons, closeSearch_wrap]

/-- C9 witness at search handle 9, callback handle 0, failure code 4. -/
theorem C9_closeSearch_behavior_witness :
    closeSearch_result (fun _ => "m") 9 0 [(0, 0)] = some (Except.ok 9) ∧
    closeSearch_cb 9 0 0 = Outcome.resolved 9 ∧
    closeSearch_result (fun _ => "m") 9 4 [] =
      some (Except.error
        { code := 4, message := some "m",
          nativeFunctionName := some "vcx_wallet_open_search" }) ∧
    "vcx_wallet_open_search" ≠ closeSearch_nativeFunction :=
  C9_closeSearch_behavior (fun _ => "m") 9 0 4 (by decide)

/-- C10: updateInstitutionConfigs throws a structured error carrying the
status when the native call's status is nonzero, and returns exactly 0
whenever it returns normally. -/
theorem C10_updateInstitutionConfigs_zero (rc v : Nat) :
    (rc ≠ 0 → updateInstitutionConfigs rc =
      Except.error { code := rc, message := none, nativeFunctionName := none }) ∧
    (updateInstitutionConfigs rc = Except.ok v → v = 0) := by
  constructor
  · intro h
    simp [updateInstitutionConfigs, h]
  · intro h
    by_cases hrc : rc = 0
    · subst hrc
      simp [updateInstitutionConfigs] at h
      omega
    · simp [updateInstitutionConfigs, hrc] at h

/-- C10 witness: status 1 throws the code-1 error; status 0 returns 0. -/
theorem C10_updateInstitutionConfigs_zero_witness :
    updateInstitutionConfigs 1 =
      Except.error { code := 1, message := none, nativeFunctionName := none } ∧
    (0 : Nat) = 0 :=
  ⟨(C10_updateInstitutionConfigs_zero 1 0).1 (by decide),
   (C10_updateInstitutionConfigs_zero 0 0).2 rfl⟩
